import Mathlib

/-!
Verification development for the pear-wrk-wdk secure worklet core.

This file gives a shallow embedding, in Lean 4, of the worklet's core:
the secret codec (`src/utils/crypto.js`), the input validators
(`src/utils/validation.js`), the error taxonomy and sanitizer
(`src/exceptions/rpc-exception.js`), and the RPC handlers of
`src/wdk-worklet.js` (session manager and generic dispatcher), together
with theorems settling the specification's claims about them.

External collaborators (the AES-256-GCM primitive of bare-crypto, the
JSON builtins of the JS runtime, the BIP39 functions, and the wallet
engine) are modelled parametrically or from their documented semantics;
everything else is translated directly from the JavaScript source.

Machine conventions: JS byte buffers are `List Nat` with entries < 256;
JS strings are Lean `String`; absent (`undefined`) fields are `Option`;
a thrown JS exception is the `Except.error` branch.
-/

/-- Error codes of `exceptions/error-codes.js` (see `types/rpc.d.ts`):
UNKNOWN, ACCOUNT_BALANCES, WDK_MANAGER_INIT, BAD_REQUEST. -/
inductive ErrorCode where
  | unknown
  | accountBalances
  | wdkManagerInit
  | badRequest
deriving DecidableEq

/-- Model of a thrown JS `Error` object: its `message`, its `stack`, the
optional `code` property the worklet attaches via `createErrorWithCode` /
`validateRequest`, and whether the object is a `TypeError` instance
(consulted by `createStructuredError`'s inference). -/
structure JsError where
  message : String
  stack : String := ""
  code : Option ErrorCode := none
  isTypeError : Bool := false
deriving DecidableEq

/-- Model of JS whitespace characters as matched by `\s` in the base64
regex and trimmed by `String.prototype.trim` (ASCII subset; the claims
only involve ASCII input). -/
def jsWhitespace (c : Char) : Bool :=
  c = ' ' || c = '\t' || c = '\n' || c = '\r' || c = '\x0b' || c = '\x0c'

/-- Model of JS `value.trim().length === 0`: a string trims to empty
exactly when every character is whitespace. -/
def trimIsEmpty (s : String) : Bool :=
  s.data.all jsWhitespace

/-- Model of JS `hay.includes(needle)`: substring test. -/
def strIncludes (hay needle : String) : Bool :=
  (List.range (hay.data.length + 1)).any fun i => needle.data.isPrefixOf (hay.data.drop i)

/-- Constructor of coded errors, from `createErrorWithCode` in
`src/wdk-worklet.js`: a plain `Error` with a `code` property attached. -/
def createErrorWithCode (message : String) (code : ErrorCode) : JsError :=
  { message := message, code := some code }

/-- Validator `validateNonEmptyString` of `src/utils/validation.js`:
requires a string value (absent/undefined fails the `typeof` check) whose
trim is non-empty. -/
def validateNonEmptyString (value : Option String) (fieldName : String) : Except JsError Unit :=
  match value with
  | none => .error { message := fieldName ++ " must be a non-empty string" }
  | some s =>
    if trimIsEmpty s then .error { message := fieldName ++ " must be a non-empty string" }
    else .ok ()

/-- Validator `validateNonNegativeInteger` of `src/utils/validation.js`;
the wire schema already delivers an integer, so the embedded check is the
sign test. -/
def validateNonNegativeInteger (value : Int) (fieldName : String) : Except JsError Unit :=
  if value < 0 then .error { message := fieldName ++ " must be a non-negative integer" }
  else .ok ()

/-- Character class of the base64 validation regex
`/^[A-Za-z0-9+/=\s]*$/` in `validateBase64`. -/
def base64RegexChar (c : Char) : Bool :=
  ('A' ≤ c && c ≤ 'Z') || ('a' ≤ c && c ≤ 'z') || ('0' ≤ c && c ≤ '9') ||
    c = '+' || c = '/' || c = '=' || jsWhitespace c

/-- Base64 digit value of a character, from the standard alphabet
(A-Z, a-z, 0-9, +, /); `none` for every other character, including
padding and whitespace. -/
def sixbitVal (c : Char) : Option Nat :=
  if 'A' ≤ c ∧ c ≤ 'Z' then some (c.toNat - 65)
  else if 'a' ≤ c ∧ c ≤ 'z' then some (c.toNat - 97 + 26)
  else if '0' ≤ c ∧ c ≤ '9' then some (c.toNat - 48 + 52)
  else if c = '+' then some 62
  else if c = '/' then some 63
  else none

/-- Character of a base64 digit (inverse of `sixbitVal` below 64). -/
def sixbitChar (n : Nat) : Char :=
  "ABCDEFGHIJKLMNOPQRSTUVWXYZabcdefghijklmnopqrstuvwxyz0123456789+/".data.getD n 'A'

/-- Regroups a stream of base64 digit values (6 bits each) into bytes,
dropping a trailing lone digit, as Node's decoder does. -/
def b64DecodeSextets : List Nat → List Nat
  | w :: x :: y :: z :: rest =>
    (w * 4 + x / 16) :: ((x % 16) * 16 + y / 4) :: ((y % 4) * 64 + z) :: b64DecodeSextets rest
  | [w, x, y] => [w * 4 + x / 16, (x % 16) * 16 + y / 4]
  | [w, x] => [w * 4 + x / 16]
  | _ => []

/-- Modelled from the documented semantics of Node/Bare
`Buffer.from(value, 'base64')` (the repository consumes it from the
runtime): a forgiving, total decoder that skips every character outside
the base64 alphabet (padding, whitespace, junk) and never throws. -/
def bufferFromBase64 (s : String) : List Nat :=
  b64DecodeSextets (s.data.filterMap sixbitVal)

/-- Encodes bytes in groups of three into base64 characters with
padding, as `buffer.toString('base64')` does. -/
def b64EncodeChars : List Nat → List Char
  | a :: b :: c :: rest =>
    sixbitChar (a / 4) :: sixbitChar ((a % 4) * 16 + b / 16) ::
      sixbitChar ((b % 16) * 4 + c / 64) :: sixbitChar (c % 64) :: b64EncodeChars rest
  | [a, b] => [sixbitChar (a / 4), sixbitChar ((a % 4) * 16 + b / 16), sixbitChar ((b % 16) * 4), '=']
  | [a] => [sixbitChar (a / 4), sixbitChar ((a % 4) * 16), '=', '=']
  | [] => []

/-- Modelled from the documented semantics of Node/Bare
`buffer.toString('base64')`: canonical padded base64 encoding. -/
def bufferToBase64 (bs : List Nat) : String :=
  ⟨b64EncodeChars bs⟩

/-- Validator `validateBase64` of `src/utils/validation.js`: non-empty
string, then the permissive character-class regex, then a decode attempt
with `Buffer.from(value, 'base64')` in a try/catch (the decode is total,
so the catch arm is unreachable in the model, as in the runtime). -/
def validateBase64 (value : Option String) (fieldName : String) : Except JsError Unit := do
  validateNonEmptyString value fieldName
  match value with
  | none => .ok ()
  | some s =>
    if s.data.all base64RegexChar then
      -- Buffer.from(s, 'base64') is evaluated for effect only; it never throws.
      let _ := bufferFromBase64 s
      .ok ()
    else
      .error { message := fieldName ++ " must be a valid base64-encoded string" }

/-- Validator `validateWordCount` of `src/utils/validation.js`: the
value must be exactly 12 or 24. -/
def validateWordCount (value : Nat) (fieldName : String) : Except JsError Unit :=
  if value ≠ 12 ∧ value ≠ 24 then .error { message := fieldName ++ " must be 12 or 24" }
  else .ok ()

/-- Helper of `validateRequest` in `src/wdk-worklet.js`: a validation
error that carries no `code` gets `BAD_REQUEST` attached before being
rethrown. -/
def attachBadRequest (e : JsError) : JsError :=
  match e.code with
  | some _ => e
  | none => { e with code := some .badRequest }

/-- Wrapper `validateRequest` of `src/wdk-worklet.js` (the request-object
check is discharged by the wire schema, which always delivers an object):
runs the validation computation and attaches `BAD_REQUEST` to any
uncoded failure. -/
def validateRequest (fn : Except JsError α) : Except JsError α :=
  match fn with
  | .ok a => .ok a
  | .error e => .error (attachBadRequest e)

/-- Randomness supply modelling `crypto.randomBytes`: an infinite stream
of bytes together with a cursor counting how many have been drawn. -/
structure Rng where
  pos : Nat
  stream : Nat → Nat

/-- Model of `crypto.randomBytes(n)`: draws the next `n` bytes of the
stream and advances the cursor. -/
def randomBytes (n : Nat) (r : Rng) : List Nat × Rng :=
  ((List.range n).map (fun i => r.stream (r.pos + i) % 256), { r with pos := r.pos + n })

/-- Parametric model of the AES-256-GCM primitive consumed from
`bare-crypto` (an external collaborator): an authenticated cipher core
with the standard properties the repository relies on — ciphertext as
long as the plaintext, a 16-byte tag, byte-valued output, and
authenticate-then-decrypt inverting encryption. `dec` returns `none`
when tag verification fails (the runtime throw). -/
structure GcmCore where
  enc : List Nat → List Nat → List Nat → List Nat × List Nat
  dec : List Nat → List Nat → List Nat → List Nat → Option (List Nat)
  enc_length : ∀ k iv d, (enc k iv d).1.length = d.length
  tag_length : ∀ k iv d, (enc k iv d).2.length = 16
  enc_bytes : ∀ k iv d, (∀ x ∈ d, x < 256) → ∀ x ∈ (enc k iv d).1, x < 256
  tag_bytes : ∀ k iv d, ∀ x ∈ (enc k iv d).2, x < 256
  dec_enc : ∀ k iv d, dec k iv (enc k iv d).1 (enc k iv d).2 = some d

/-- Message of the error thrown by the GCM decipher on authentication
failure (modelled from the runtime's generic `Error`; its exact text is
irrelevant to the claims beyond containing none of the classifier's
keywords). -/
def gcmAuthFailure : JsError :=
  { message := "Unsupported state or unable to authenticate data" }

/-- Function `generateEncryptionKey` of `src/utils/crypto.js`: 32 random
bytes, base64-encoded; the local copy is zeroed before returning. -/
def generateEncryptionKey (r : Rng) : String × Rng :=
  let key := (randomBytes 32 r).1
  (bufferToBase64 key, (randomBytes 32 r).2)

/-- Function `encrypt` of `src/utils/crypto.js`: decode the key, draw a
fresh 12-byte IV, run AES-256-GCM, emit base64 of IV ‖ ciphertext ‖
authTag. The third component records, in order, the buffers passed to
`memzero` before returning; the JS source zeroes them only after the
result is built, so they are reported only on the success path (the
embedding of `encrypt` has no failing path: key-shape failures happen
inside the external cipher). -/
def encrypt (core : GcmCore) (data : List Nat) (keyBase64 : String) (r : Rng) :
    String × Rng × List String :=
  let key := bufferFromBase64 keyBase64
  let iv := (randomBytes 12 r).1
  let encrypted := (core.enc key iv data).1
  let authTag := (core.enc key iv data).2
  (bufferToBase64 (iv ++ encrypted ++ authTag), (randomBytes 12 r).2,
    ["key", "iv", "encrypted", "authTag"])

/-- Function `decrypt` of `src/utils/crypto.js`: base64-decode, split
into IV (first 12 bytes), authTag (last 16) and ciphertext (the middle),
authenticate-and-decrypt. The second component records the buffers passed
to `memzero`: the JS `memzero` calls stand after `decipher.final()`, so
when the decipher throws (tag mismatch / malformed blob) the error
propagates first and nothing is zeroed. -/
def decrypt (core : GcmCore) (encryptedBase64 keyBase64 : String) :
    Except JsError (List Nat) × List String :=
  let key := bufferFromBase64 keyBase64
  let encryptedBuffer := bufferFromBase64 encryptedBase64
  let iv := encryptedBuffer.take 12
  let authTag := encryptedBuffer.drop (encryptedBuffer.length - 16)
  let encrypted := (encryptedBuffer.drop 12).take (encryptedBuffer.length - 16 - 12)
  match core.dec key iv encrypted authTag with
  | some decrypted => (.ok decrypted, ["key", "encryptedBuffer", "iv", "authTag", "encrypted"])
  | none => (.error gcmAuthFailure, [])

/-- Function `generateEntropy` of `src/utils/crypto.js`: rejects word
counts other than 12 and 24, then samples 16 or 32 random bytes (the
intermediate buffer is copied into a fresh array and zeroed). -/
def generateEntropy (wordCount : Nat) (r : Rng) : Except JsError (List Nat) × Rng :=
  if wordCount ≠ 12 ∧ wordCount ≠ 24 then
    (.error { message := "Word count must be 12 or 24" }, r)
  else
    let entropyLength := if wordCount = 12 then 16 else 32
    (.ok (randomBytes entropyLength r).1, (randomBytes entropyLength r).2)

/-- Function `encryptSecrets` of `src/utils/crypto.js`: one fresh key,
both buffers encrypted under it, plaintext copies zeroed, the key
returned once. -/
structure EncryptedSecrets where
  encryptionKey : String
  encryptedSeedBuffer : String
  encryptedEntropyBuffer : String
deriving DecidableEq

def encryptSecrets (core : GcmCore) (seed entropy : List Nat) (r : Rng) :
    EncryptedSecrets × Rng :=
  let encryptionKey := (generateEncryptionKey r).1
  let r1 := (generateEncryptionKey r).2
  let r2 := (encrypt core seed encryptionKey r1).2.1
  let r3 := (encrypt core entropy encryptionKey r2).2.1
  ({ encryptionKey := encryptionKey,
     encryptedSeedBuffer := (encrypt core seed encryptionKey r1).1,
     encryptedEntropyBuffer := (encrypt core entropy encryptionKey r2).1 }, r3)

/-- Padding characters carry no base64 digit value. -/
theorem sixbitVal_eq : sixbitVal '=' = none := by decide

/-- Below 64, `sixbitChar` and `sixbitVal` are mutually inverse. -/
theorem sixbitVal_sixbitChar : ∀ n : Nat, n < 64 → sixbitVal (sixbitChar n) = some n := by decide

/-- Decoding the digit stream of an encoding recovers the original
bytes: the heart of the base64 round trip. -/
theorem b64_decode_encode : ∀ (bs : List Nat), (∀ b ∈ bs, b < 256) →
    b64DecodeSextets ((b64EncodeChars bs).filterMap sixbitVal) = bs
  | [], _ => rfl
  | [a], h => by
    have ha : a < 256 := h a (by simp)
    simp only [b64EncodeChars, List.filterMap_cons,
      sixbitVal_sixbitChar (a / 4) (by omega),
      sixbitVal_sixbitChar ((a % 4) * 16) (by omega), sixbitVal_eq, List.filterMap_nil]
    simp only [b64DecodeSextets]
    have : (a / 4) * 4 + ((a % 4) * 16) / 16 = a := by omega
    rw [this]
  | [a, b], h => by
    have ha : a < 256 := h a (by simp)
    have hb : b < 256 := h b (by simp)
    simp only [b64EncodeChars, List.filterMap_cons,
      sixbitVal_sixbitChar (a / 4) (by omega),
      sixbitVal_sixbitChar ((a % 4) * 16 + b / 16) (by omega),
      sixbitVal_sixbitChar ((b % 16) * 4) (by omega), sixbitVal_eq, List.filterMap_nil]
    simp only [b64DecodeSextets]
    have e1 : (a / 4) * 4 + ((a % 4) * 16 + b / 16) / 16 = a := by omega
    have e2 : (((a % 4) * 16 + b / 16) % 16) * 16 + ((b % 16) * 4) / 4 = b := by omega
    rw [e1, e2]
  | a :: b :: c :: rest, h => by
    have ha : a < 256 := h a (by simp)
    have hb : b < 256 := h b (by simp)
    have hc : c < 256 := h c (by simp)
    have ih := b64_decode_encode rest (fun x hx => h x (by simp [hx]))
    simp only [b64EncodeChars, List.filterMap_cons,
      sixbitVal_sixbitChar (a / 4) (by omega),
      sixbitVal_sixbitChar ((a % 4) * 16 + b / 16) (by omega),
      sixbitVal_sixbitChar ((b % 16) * 4 + c / 64) (by omega),
      sixbitVal_sixbitChar (c % 64) (by omega)]
    simp only [b64DecodeSextets]
    rw [ih]
    have e1 : (a / 4) * 4 + ((a % 4) * 16 + b / 16) / 16 = a := by omega
    have e2 : (((a % 4) * 16 + b / 16) % 16) * 16 + (((b % 16) * 4 + c / 64)) / 4 = b := by omega
    have e3 : (((b % 16) * 4 + c / 64) % 4) * 64 + c % 64 = c := by omega
    rw [e1, e2, e3]

/-- Base64 round trip on byte lists, as performed by the secret codec
through `buffer.toString('base64')` and `Buffer.from(-, 'base64')`. -/
theorem bufferFromBase64_toBase64 (bs : List Nat) (h : ∀ b ∈ bs, b < 256) :
    bufferFromBase64 (bufferToBase64 bs) = bs :=
  b64_decode_encode bs h

/-- Drawn random bytes have the requested length. -/
theorem randomBytes_length (n : Nat) (r : Rng) : (randomBytes n r).1.length = n := by
  simp [randomBytes]

/-- Drawn random bytes are bytes. -/
theorem randomBytes_lt (n : Nat) (r : Rng) : ∀ x ∈ (randomBytes n r).1, x < 256 := by
  intro x hx
  simp only [randomBytes, List.mem_map] at hx
  obtain ⟨i, _, rfl⟩ := hx
  exact Nat.mod_lt _ (by omega)

/-- Model of JS runtime values as seen by the dispatcher and serializers.
`vCyclic` stands for an object graph containing a reference cycle (not
representable as a finite tree): `JSON.stringify` throws a `TypeError` on
it, and the field records its `String()` form. `vDate` records the
date's ISO string. -/
inductive JsValue where
  | vNull
  | vBool (b : Bool)
  | vNum (n : Int)
  | vStr (s : String)
  | vBigInt (n : Int)
  | vDate (iso : String)
  | vArr (elems : List JsValue)
  | vObj (fields : List (String × JsValue))
  | vCyclic (str : String)

/-- JSON string quoting (escaping of quotes and backslashes; control
character escapes are elided, no claim involves them). -/
def jsonQuote (s : String) : String :=
  ⟨'"' :: s.data.foldr (fun c acc => (if c = '"' ∨ c = '\\' then ['\\', c] else [c]) ++ acc) ['"']⟩

mutual

/-- Model of `JSON.stringify` with the replacer used by `safeStringify`
(BigInt to decimal string) and `serializeResult` (plus Date to ISO
string; plain `JSON.stringify` already serializes dates via
`Date.prototype.toJSON`, so one function serves every call site).
Returns `none` where the runtime throws: on a circular structure. -/
def jsonStringify : JsValue → Option String
  | .vNull => some "null"
  | .vBool b => some (if b then "true" else "false")
  | .vNum n => some (toString n)
  | .vStr s => some (jsonQuote s)
  | .vBigInt n => some (jsonQuote (toString n))
  | .vDate iso => some (jsonQuote iso)
  | .vCyclic _ => none
  | .vArr elems =>
    match jsonStringifyList elems with
    | some parts => some ("[" ++ String.intercalate "," parts ++ "]")
    | none => none
  | .vObj fields =>
    match jsonStringifyFields fields with
    | some parts => some ("\x7b" ++ String.intercalate "," parts ++ "\x7d")
    | none => none

/-- Serialization of array elements for `jsonStringify`. -/
def jsonStringifyList : List JsValue → Option (List String)
  | [] => some []
  | v :: vs =>
    match jsonStringify v, jsonStringifyList vs with
    | some s, some ss => some (s :: ss)
    | _, _ => none

/-- Serialization of object fields for `jsonStringify`. -/
def jsonStringifyFields : List (String × JsValue) → Option (List String)
  | [] => some []
  | (k, v) :: fs =>
    match jsonStringify v, jsonStringifyFields fs with
    | some s, some ss => some ((jsonQuote k ++ ":" ++ s) :: ss)
    | _, _ => none

end

/-- Function `safeStringify` of `src/utils/safe-stringify.js`:
`JSON.stringify` with only the BigInt replacer and no try/catch — the
`TypeError` a circular structure raises propagates to the caller
(modelled by `none`). -/
def safeStringify (obj : JsValue) : Option String :=
  jsonStringify obj

/-- Model of the `TypeError` thrown by `JSON.stringify` on a circular
structure. -/
def circularTypeError : JsError :=
  { message := "Converting circular structure to JSON", isTypeError := true }

/-- Model of JS `String(value)` as used by `serializeResult`'s fallback;
only values of object type reach it, and of those only `vCyclic` appears
in the theorems (array join semantics are elided). -/
def jsToString : JsValue → String
  | .vNull => "null"
  | .vBool b => if b then "true" else "false"
  | .vNum n => toString n
  | .vStr s => s
  | .vBigInt n => toString n
  | .vDate iso => iso
  | .vArr _ => ""
  | .vObj _ => "[object Object]"
  | .vCyclic str => str

/-- Tagged placeholder built by `serializeResult`'s catch arm:
`JSON.stringify({_type:'non-serializable',_value:String(result)})`. -/
def nonSerializablePlaceholder (result : JsValue) : String :=
  "\x7b\"_type\":\"non-serializable\",\"_value\":" ++ jsonQuote (jsToString result) ++ "\x7d"

/-- Function `serializeResult` of `src/src/wdk-worklet.js` (legacy
worklet): handles undefined/null, BigInt and Date up front, serializes
object values inside a try/catch falling back to the tagged placeholder,
and serializes remaining primitives directly. Total: it never throws. -/
def serializeResult (result : JsValue) : String :=
  match result with
  | .vNull => "null"
  | .vBigInt n => jsonQuote (toString n)
  | .vDate iso => jsonQuote iso
  | .vArr elems =>
    match jsonStringify (.vArr elems) with
    | some s => s
    | none => nonSerializablePlaceholder (.vArr elems)
  | .vObj fields =>
    match jsonStringify (.vObj fields) with
    | some s => s
    | none => nonSerializablePlaceholder (.vObj fields)
  | .vCyclic str =>
    match jsonStringify (.vCyclic str) with
    | some s => s
    | none => nonSerializablePlaceholder (.vCyclic str)
  | .vBool b => if b then "true" else "false"
  | .vNum n => toString n
  | .vStr s => jsonQuote s

/-- JS truthiness of a runtime value (`config &&`, `!networkConfigs[n]`,
`argsJson ?`). -/
def truthy : JsValue → Bool
  | .vNull => false
  | .vBool b => b
  | .vNum n => n ≠ 0
  | .vStr s => s ≠ ""
  | .vBigInt n => n ≠ 0
  | _ => true

/-- JS `typeof value === 'object'` (`null`, arrays, plain objects, dates
and cyclic graphs are objects). -/
def typeofObject : JsValue → Bool
  | .vNull | .vArr _ | .vObj _ | .vCyclic _ | .vDate _ => true
  | _ => false

/-- Property read `obj[key]` on a parsed JSON value; non-objects are
modelled as having no properties (adequate for the object-shaped configs
the claims involve). -/
def jsGetField (v : JsValue) (key : String) : Option JsValue :=
  match v with
  | .vObj fields => fields.lookup key
  | _ => none

/-- Model of `Object.entries` on a parsed JSON value. -/
def jsEntries : JsValue → List (String × JsValue)
  | .vObj fields => fields
  | _ => []

/-- Validator `validateJSON` of `src/utils/validation.js`: requires a
string and parses it; `parse` abstracts the runtime's `JSON.parse`
(`none` models a parse failure, whose message is elided into a fixed
text since no claim reads it). -/
def validateJSON (parse : String → Option JsValue) (value : Option String) (fieldName : String) :
    Except JsError JsValue :=
  match value with
  | none => .error { message := fieldName ++ " must be a JSON string" }
  | some s =>
    match parse s with
    | some v => .ok v
    | none => .error { message := fieldName ++ " must be valid JSON: parse error" }

/-- Structured error response of `exceptions/rpc-exception.js`
(`rpcExceptionResponse`): code, message, and the sanitized cause
string. -/
structure StructuredError where
  code : ErrorCode
  message : String
  error : String
deriving DecidableEq

/-- Function `stringifyError` of `src/exceptions/rpc-exception.js` (the
sanitizer required by the current handlers): for an `Error` instance,
message plus stack in development mode, message alone otherwise. `dev`
abstracts `isDevelopmentMode()` (an environment read). The non-Error
branch (safeStringify fallback) is not exercised: every value thrown in
the embedded handlers is an `Error`. -/
def stringifyError (dev : Bool) (error : JsError) : String :=
  if dev then error.message ++ ": " ++ error.stack else error.message

/-- Function `stringifyError` of `src/src/exceptions/rpc-exception.js`
(the legacy worklet's serializer, also used for transport): includes
message plus stack for every `Error`, with no development-mode gate. -/
def stringifyErrorLegacy (error : JsError) : String :=
  error.message ++ ": " ++ error.stack

/-- Function `createStructuredError` of `src/exceptions/rpc-exception.js`:
when no explicit code argument is supplied it infers one from the error
value — `TypeError` means BAD_REQUEST, a message mentioning "WDK" means
WDK_MANAGER_INIT, one mentioning "balance" means ACCOUNT_BALANCES,
otherwise UNKNOWN. Note the thrown error's own `code` property is never
consulted. -/
def createStructuredError (dev : Bool) (error : JsError) (code : Option ErrorCode) :
    StructuredError :=
  let inferred : ErrorCode :=
    match code with
    | some c => c
    | none =>
      if error.isTypeError then .badRequest
      else if strIncludes error.message "WDK" then .wdkManagerInit
      else if strIncludes error.message "balance" then .accountBalances
      else .unknown
  { code := inferred, message := error.message, error := stringifyError dev error }

/-- Wrapper `withErrorHandling` of `src/wdk-worklet.js`: catches a
handler failure, builds the structured error, and rethrows it (as its
JSON form on the wire; modelled as the structured value itself). Every
handler registration passes no `defaultErrorCode`. -/
def withErrorHandling (dev : Bool) (defaultErrorCode : Option ErrorCode)
    (handler : Except JsError α) : Except StructuredError α :=
  match handler with
  | .ok a => .ok a
  | .error e => .error (createStructuredError dev e defaultErrorCode)

/-- State of a wallet-engine instance (the external `@tetherto/wdk`
class): the seed it was constructed from and the `registerWallet` calls
recorded in order (network name and config object; the manager
capability itself is opaque). -/
structure WdkInstance where
  seed : List Nat
  registered : List (String × JsValue)

/-- Engine method `registerWallet(network, manager, config)`: records the
registration on the instance (in place, through the live reference). -/
def registerWallet (w : WdkInstance) (network : String) (config : JsValue) : WdkInstance :=
  { w with registered := w.registered ++ [(network, config)] }

/-- Handler context of `registerRpcHandlers`: the current engine instance
(`context.wdk`, `none` before initialization and after dispose), whether
the WDK class loaded, the registry of networks that have a wallet
manager (`walletManagers`, modelled by the key set since the manager
values are opaque), and the required-networks list. -/
structure Ctx where
  wdk : Option WdkInstance
  wdkLoaded : Bool
  walletManagers : List String
  requiredNetworks : List String

/-- Observable events of a handler run: engine disposal, engine
construction, a wallet registration, an account resolution. -/
inductive Ev where
  | disposed (seed : List Nat)
  | constructed (seed : List Nat)
  | registered (network : String)
  | gotAccount (network : String) (accountIndex : Int)
deriving DecidableEq

/-- Property of an account capability object: an invocable function
(taking the positional-argument list of the JS call) or a plain value. -/
inductive AccountProp where
  | fn (f : List JsValue → Except JsError JsValue)
  | val (v : JsValue)

/-- An account capability object resolved by the engine: a property map,
duck-typed as in the source. -/
structure Account where
  props : List (String × AccountProp)

/-- Names of the invocable properties, as computed for the
"Available methods" diagnostic. -/
def Account.methodNames (a : Account) : List String :=
  (a.props.filter fun p => match p.2 with | .fn _ => true | .val _ => false).map Prod.fst

/-- JS truthiness of an optional string field (`!init.encryptionKey`). -/
def truthyOptStr : Option String → Bool
  | some s => s ≠ ""
  | none => false

/-- Function `callWdkMethod` of `src/wdk-worklet.js`: reject when no
engine instance is installed, validate the network name, resolve the
account through the engine (`getAccount` abstracts the external engine's
behavior), check the requested method is invocable, and invoke it with
the single `args` value (`account[methodName](args)` passes exactly one
positional argument). The second component lists the engine interactions
performed. -/
def callWdkMethod (getAccount : WdkInstance → String → Int → Except JsError Account)
    (ctx : Ctx) (methodName : String) (network : Option String) (accountIndex : Int)
    (args : JsValue) : Except JsError JsValue × List Ev :=
  match ctx.wdk with
  | none => (.error (createErrorWithCode "WDK not initialized. Call initializeWDK first."
      .wdkManagerInit), [])
  | some wdk =>
    match network with
    | none => (.error (createErrorWithCode "Network must be a non-empty string" .badRequest), [])
    | some net =>
      if trimIsEmpty net then
        (.error (createErrorWithCode "Network must be a non-empty string" .badRequest), [])
      else
        match getAccount wdk net accountIndex with
        | .error e =>
          (.error (createErrorWithCode ("Failed to get account for network \"" ++ net ++
            "\" at index " ++ toString accountIndex ++ ": " ++ e.message) .accountBalances),
            [.gotAccount net accountIndex])
        | .ok account =>
          match account.props.lookup methodName with
          | some (.fn f) => (f [args], [.gotAccount net accountIndex])
          | _ =>
            (.error (createErrorWithCode ("Method \"" ++ methodName ++
              "\" not found on account for network \"" ++ net ++ "\". Available methods: " ++
              String.intercalate ", " account.methodNames) .badRequest),
              [.gotAccount net accountIndex])

/-- Request of `callMethod` (wire schema: strings and an integer; `args`
optional). -/
structure CallMethodPayload where
  methodName : Option String
  network : Option String
  accountIndex : Int
  args : Option String

/-- Response of `callMethod`. -/
structure CallMethodResponse where
  result : String
deriving DecidableEq

/-- Validation closure of the `onCallMethod` handler: required fields,
then `args` parsed through `validateJSON` when truthy (`argsJson ?`),
`null` otherwise. Returns the decoded `args` value. -/
def callMethodValidation (parse : String → Option JsValue) (payload : CallMethodPayload) :
    Except JsError JsValue := do
  validateNonEmptyString payload.methodName "methodName"
  validateNonEmptyString payload.network "network"
  validateNonNegativeInteger payload.accountIndex "accountIndex"
  match payload.args with
  | some s => if s ≠ "" then validateJSON parse (some s) "args" else pure .vNull
  | none => pure .vNull

/-- Body of the `onCallMethod` handler of `src/wdk-worklet.js`: validate
the payload (parsing `args` when truthy), dispatch through
`callWdkMethod`, and serialize the raw result with `safeStringify`. -/
def onCallMethodBody (parse : String → Option JsValue)
    (getAccount : WdkInstance → String → Int → Except JsError Account)
    (ctx : Ctx) (payload : CallMethodPayload) :
    Except JsError CallMethodResponse × List Ev :=
  match validateRequest (callMethodValidation parse payload) with
  | .error e => (.error e, [])
  | .ok args =>
    match callWdkMethod getAccount ctx (payload.methodName.getD "") payload.network
        payload.accountIndex args with
    | (.error e, evs) => (.error e, evs)
    | (.ok result, evs) =>
      match safeStringify result with
      | some s => (.ok { result := s }, evs)
      | none => (.error circularTypeError, evs)

/-- Handler `onCallMethod` wrapped by `withErrorHandling` (no default
code is passed at the registration site). -/
def onCallMethod (dev : Bool) (parse : String → Option JsValue)
    (getAccount : WdkInstance → String → Int → Except JsError Account)
    (ctx : Ctx) (payload : CallMethodPayload) :
    Except StructuredError CallMethodResponse × List Ev :=
  let (r, evs) := onCallMethodBody parse getAccount ctx payload
  (withErrorHandling dev none r, evs)

/-- Handler `onDispose` of `src/wdk-worklet.js`: dispose the current
instance if any and clear the reference; a no-op otherwise. -/
def onDispose (ctx : Ctx) : Ctx × List Ev :=
  match ctx.wdk with
  | some w => ({ ctx with wdk := none }, [.disposed w.seed])
  | none => (ctx, [])

/-- Request of `getMnemonicFromEntropy`. -/
structure GetMnemonicRequest where
  encryptedEntropy : Option String
  encryptionKey : Option String

/-- Response of `getMnemonicFromEntropy`. -/
structure MnemonicResponse where
  mnemonic : String
deriving DecidableEq

/-- Validation closure of the `onGetMnemonicFromEntropy` handler: both
fields must be base64. -/
def mnemonicRequestValidation (req : GetMnemonicRequest) : Except JsError Unit := do
  validateBase64 req.encryptedEntropy "encryptedEntropy"
  validateBase64 req.encryptionKey "encryptionKey"

/-- Body of the `onGetMnemonicFromEntropy` handler: validate both base64
fields, then decrypt the entropy — the `decrypt` call stands outside any
try/catch, so its failure propagates uncoded — and convert it to a
mnemonic (`entropyToMnemonic` abstracts the external BIP39 function). -/
def onGetMnemonicFromEntropyBody (core : GcmCore)
    (entropyToMnemonic : List Nat → Except JsError String)
    (req : GetMnemonicRequest) : Except JsError MnemonicResponse :=
  match validateRequest (mnemonicRequestValidation req) with
  | .error e => .error e
  | .ok _ =>
    match (decrypt core (req.encryptedEntropy.getD "") (req.encryptionKey.getD "")).1 with
    | .error e => .error e
    | .ok entropyBuffer =>
      match entropyToMnemonic entropyBuffer with
      | .error e => .error e
      | .ok mnemonic => .ok { mnemonic := mnemonic }

/-- Handler `onGetMnemonicFromEntropy` wrapped by `withErrorHandling`
(no default code at the registration site). -/
def onGetMnemonicFromEntropy (dev : Bool) (core : GcmCore)
    (entropyToMnemonic : List Nat → Except JsError String)
    (req : GetMnemonicRequest) : Except StructuredError MnemonicResponse :=
  withErrorHandling dev none (onGetMnemonicFromEntropyBody core entropyToMnemonic req)

/-- Request of `generateEntropyAndEncrypt`. -/
structure GenerateEntropyRequest where
  wordCount : Nat

/-- Body of the `onGenerateEntropyAndEncrypt` handler: validate the word
count, sample entropy, derive mnemonic and seed (external BIP39
functions abstracted), and encrypt both secrets under a fresh key. -/
def onGenerateEntropyAndEncryptBody (core : GcmCore)
    (entropyToMnemonic : List Nat → Except JsError String)
    (mnemonicToSeedSync : String → List Nat)
    (req : GenerateEntropyRequest) (r : Rng) : Except JsError EncryptedSecrets × Rng :=
  match validateRequest (validateWordCount req.wordCount "wordCount") with
  | .error e => (.error e, r)
  | .ok _ =>
    match generateEntropy req.wordCount r with
    | (.error e, r1) => (.error e, r1)
    | (.ok entropy, r1) =>
      match entropyToMnemonic entropy with
      | .error e => (.error e, r1)
      | .ok mnemonic =>
        let seedBuffer := mnemonicToSeedSync mnemonic
        let (secrets, r2) := encryptSecrets core seedBuffer entropy r1
        (.ok secrets, r2)

/-- Handler `onGenerateEntropyAndEncrypt` wrapped by `withErrorHandling`
(no default code at the registration site). -/
def onGenerateEntropyAndEncrypt (dev : Bool) (core : GcmCore)
    (entropyToMnemonic : List Nat → Except JsError String)
    (mnemonicToSeedSync : String → List Nat)
    (req : GenerateEntropyRequest) (r : Rng) : Except StructuredError EncryptedSecrets × Rng :=
  let (res, r') := onGenerateEntropyAndEncryptBody core entropyToMnemonic mnemonicToSeedSync req r
  (withErrorHandling dev none res, r')

/-- Request of `initializeWDK`. -/
structure InitRequest where
  config : Option String
  encryptionKey : Option String
  encryptedSeed : Option String

/-- Response of `initializeWDK`. -/
structure InitResponse where
  status : String
deriving DecidableEq

/-- Registration loop of `onInitializeWDK`: for each config entry that is
a truthy object, resolve the wallet manager (failing with
WDK_MANAGER_INIT when the registry has none) and register it on the
instance. Returns the outcome together with the instance as mutated so
far — on failure, the partially registered instance — and the
registration events. -/
def registerNetworks (walletManagers : List String) (w : WdkInstance) :
    List (String × JsValue) → Except JsError Unit × WdkInstance × List Ev
  | [] => (.ok (), w, [])
  | (networkName, config) :: rest =>
    if truthy config && typeofObject config then
      if walletManagers.contains networkName then
        let w2 := registerWallet w networkName config
        let (r, wf, evs) := registerNetworks walletManagers w2 rest
        (r, wf, .registered networkName :: evs)
      else
        (.error (createErrorWithCode ("No wallet manager found for network: " ++ networkName)
          .wdkManagerInit), w, [])
    else
      registerNetworks walletManagers w rest

/-- Validation closure of the `onInitializeWDK` handler: non-empty JSON
config (returning the parsed value), presence of both the encryption key
and the encrypted seed, and base64 shape of both. -/
def initRequestValidation (parse : String → Option JsValue) (init : InitRequest) :
    Except JsError JsValue := do
  validateNonEmptyString init.config "config"
  let networkConfigs ← validateJSON parse init.config "config"
  if ¬truthyOptStr init.encryptionKey ∨ ¬truthyOptStr init.encryptedSeed then
    .error (createErrorWithCode "(encryptionKey + encryptedSeed) must be provided" .badRequest)
  else do
    validateBase64 init.encryptionKey "encryptionKey"
    validateBase64 init.encryptedSeed "encryptedSeed"
    pure networkConfigs

/-- Body of the `onInitializeWDK` handler of `src/wdk-worklet.js`, in
source order: WDK-load check; dispose of any existing instance (the
reference stays until overwritten); validation of config, key and seed;
required-network completeness; seed decryption inside a try/catch that
rewraps failures as BAD_REQUEST; construction of the new instance —
installed into the context immediately — and the registration loop,
whose failure leaves the partially registered instance installed. -/
def onInitializeWDKBody (core : GcmCore) (parse : String → Option JsValue)
    (ctx : Ctx) (init : InitRequest) : Except JsError InitResponse × Ctx × List Ev :=
  if ¬ctx.wdkLoaded then
    (.error (createErrorWithCode "WDK not loaded - unknown error during initialization"
      .wdkManagerInit), ctx, [])
  else
    let disposeEvs : List Ev :=
      match ctx.wdk with
      | some w => [.disposed w.seed]
      | none => []
    match validateRequest (initRequestValidation parse init) with
    | .error e => (.error e, ctx, disposeEvs)
    | .ok networkConfigs =>
      let missingNetworks := ctx.requiredNetworks.filter
        fun n => ¬truthy ((jsGetField networkConfigs n).getD .vNull)
      if missingNetworks ≠ [] then
        (.error (createErrorWithCode ("Missing network configurations: " ++
          String.intercalate ", " missingNetworks) .badRequest), ctx, disposeEvs)
      else
        match (decrypt core (init.encryptedSeed.getD "") (init.encryptionKey.getD "")).1 with
        | .error e =>
          (.error (createErrorWithCode ("Failed to decrypt seed: " ++ e.message) .badRequest),
            ctx, disposeEvs)
        | .ok decryptedSeedBuffer =>
          let w0 : WdkInstance := { seed := decryptedSeedBuffer, registered := [] }
          let (r, wFinal, regEvs) :=
            registerNetworks ctx.walletManagers w0 (jsEntries networkConfigs)
          let ctx2 := { ctx with wdk := some wFinal }
          let evs := disposeEvs ++ [.constructed decryptedSeedBuffer] ++ regEvs
          match r with
          | .ok _ => (.ok { status := "initialized" }, ctx2, evs)
          | .error e => (.error e, ctx2, evs)

/-- Handler `onInitializeWDK` wrapped by `withErrorHandling` (no default
code at the registration site). -/
def onInitializeWDK (dev : Bool) (core : GcmCore) (parse : String → Option JsValue)
    (ctx : Ctx) (init : InitRequest) : Except StructuredError InitResponse × Ctx × List Ev :=
  let (r, ctx2, evs) := onInitializeWDKBody core parse ctx init
  (withErrorHandling dev none r, ctx2, evs)

/-- Degenerate but lawful cipher core used to witness theorems that are
parametric in the GCM primitive: ciphertext equals plaintext and the tag
is sixteen zero bytes, checked on decryption. -/
def trivialCore : GcmCore where
  enc := fun _ _ d => (d, List.replicate 16 0)
  dec := fun _ _ ct tag => if tag = List.replicate 16 0 then some ct else none
  enc_length := fun _ _ _ => rfl
  tag_length := fun _ _ _ => by simp
  enc_bytes := fun _ _ _ h => h
  tag_bytes := by
    intro k iv d x hx
    simp only [List.mem_replicate] at hx
    omega
  dec_enc := fun _ _ _ => by simp

/-- Zero randomness stream at cursor zero, for concrete evaluations. -/
def rng0 : Rng := ⟨0, fun _ => 0⟩

/-- Claim C4. Round trip of the secret codec: for every byte buffer `b`
and every key produced by `generateKey`, decrypting the encryption of
`b` under that key returns `b`, for any cipher core with the GCM
properties. The proof tracks the wrapper's framing: base64 round trip of
the IV ‖ ciphertext ‖ authTag blob and the 12/16-byte splits of
`decrypt`. -/
theorem c4_encrypt_decrypt_roundtrip (core : GcmCore) (b : List Nat) (r1 r2 : Rng)
    (hb : ∀ x ∈ b, x < 256) :
    (decrypt core (encrypt core b (generateEncryptionKey r1).1 r2).1
      (generateEncryptionKey r1).1).1 = .ok b := by
  simp only [encrypt, decrypt]
  set key := bufferFromBase64 (generateEncryptionKey r1).1 with hkey
  set iv := (randomBytes 12 r2).1 with hivdef
  set ct := (core.enc key iv b).1 with hct
  set tag := (core.enc key iv b).2 with htag
  have hivlen : iv.length = 12 := randomBytes_length 12 r2
  have hctlen : ct.length = b.length := core.enc_length key iv b
  have htaglen : tag.length = 16 := core.tag_length key iv b
  have hbytes : ∀ x ∈ iv ++ ct ++ tag, x < 256 := by
    intro x hx
    rcases List.mem_append.mp hx with hx' | hx'
    · rcases List.mem_append.mp hx' with h2 | h2
      · exact randomBytes_lt 12 r2 x h2
      · exact core.enc_bytes key iv b hb x h2
    · exact core.tag_bytes key iv b x hx'
  have hbuf : bufferFromBase64 (bufferToBase64 (iv ++ ct ++ tag)) = iv ++ ct ++ tag :=
    bufferFromBase64_toBase64 _ hbytes
  rw [hbuf]
  have hlen : (iv ++ ct ++ tag).length = 12 + b.length + 16 := by
    simp only [List.length_append, hivlen, hctlen, htaglen]
  have htake : (iv ++ ct ++ tag).take 12 = iv := by
    rw [List.append_assoc, List.take_append_of_le_length (by omega), List.take_of_length_le (by omega)]
  have hdrop12 : (iv ++ ct ++ tag).drop 12 = ct ++ tag := by
    rw [List.append_assoc, List.drop_append_of_le_length (by omega), List.drop_of_length_le (by omega), List.nil_append]
  have hdroptag : (iv ++ ct ++ tag).drop ((iv ++ ct ++ tag).length - 16) = tag := by
    rw [hlen]
    have : 12 + b.length + 16 - 16 = (iv ++ ct).length := by simp [hivlen, hctlen]
    rw [this, List.drop_left]
  have hmid : ((iv ++ ct ++ tag).drop 12).take ((iv ++ ct ++ tag).length - 16 - 12) = ct := by
    rw [hdrop12, hlen]
    have : 12 + b.length + 16 - 16 - 12 = ct.length := by omega
    rw [this, List.take_left]
  rw [htake, hdroptag, hmid, core.dec_enc key iv b]

/-- Witness for C4 at a concrete buffer, key and core. -/
theorem c4_encrypt_decrypt_roundtrip_witness :
    (∀ x ∈ [1, 2, 3], x < 256) ∧
    (decrypt trivialCore (encrypt trivialCore [1, 2, 3] (generateEncryptionKey rng0).1 rng0).1
      (generateEncryptionKey rng0).1).1 = .ok [1, 2, 3] :=
  ⟨by decide, c4_encrypt_decrypt_roundtrip trivialCore [1, 2, 3] rng0 rng0 (by decide)⟩

/-- Boolean success test on `Except`. -/
def exceptIsOk : Except ε α → Bool
  | .ok _ => true
  | .error _ => false

/-- Claim C6 (counterexample). A decryption that fails (here: a 29-byte
blob whose tag bytes are not the core's tag, i.e. an authentication
failure) zeroes no buffer at all: the zeroed-buffer list of the run is
empty, refuting "every local sensitive buffer is overwritten with zeros
… including on the failure paths" — the JS `memzero` calls stand after
`decipher.final()` with no try/finally. -/
theorem c6_zeroization_counterexample :
    (decrypt trivialCore (bufferToBase64 (List.replicate 29 1))
      (bufferToBase64 (List.replicate 32 0))).1 = .error gcmAuthFailure ∧
    (decrypt trivialCore (bufferToBase64 (List.replicate 29 1))
      (bufferToBase64 (List.replicate 32 0))).2 = [] :=
  ⟨rfl, rfl⟩

/-- Claim C6 (amended). The secret codec zeroes its local buffers (key
copy, buffer, IV, tag, ciphertext) exactly on the success path: a
successful `decrypt` zeroes all five, a failing `decrypt` zeroes none
(the error propagates before any `memzero` runs), and `encrypt` — which
has no failing path of its own — zeroes its four. -/
theorem c6_zeroization_amended (core : GcmCore) (blob key k2 : String) (d : List Nat) (r : Rng) :
    (exceptIsOk (decrypt core blob key).1 = true →
      (decrypt core blob key).2 = ["key", "encryptedBuffer", "iv", "authTag", "encrypted"]) ∧
    (exceptIsOk (decrypt core blob key).1 = false → (decrypt core blob key).2 = []) ∧
    (encrypt core d k2 r).2.2 = ["key", "iv", "encrypted", "authTag"] := by
  refine ⟨?_, ?_, rfl⟩ <;>
  · simp only [decrypt]
    split <;> intro h <;> simp_all [exceptIsOk]

/-- Witness for C6's amended theorem at concrete successful and failing
runs. -/
theorem c6_zeroization_amended_witness :
    (decrypt trivialCore (bufferToBase64 (List.replicate 29 0)) "").2 =
      ["key", "encryptedBuffer", "iv", "authTag", "encrypted"] ∧
    (encrypt trivialCore [5] "" rng0).2.2 = ["key", "iv", "encrypted", "authTag"] :=
  ⟨(c6_zeroization_amended trivialCore (bufferToBase64 (List.replicate 29 0)) "" "" [5] rng0).1
      (by decide),
    (c6_zeroization_amended trivialCore "" "" "" [5] rng0).2.2⟩

/-- Claim C10 (counterexample). The string `" "` is non-empty and lies
in the regex character class (whitespace is allowed), yet `validateBase64`
raises — its first stage requires a non-empty *trim* — refuting the
claim for whitespace-only inputs. -/
theorem c10_base64_whitespace_counterexample :
    " " ≠ "" ∧ (" ".data.all base64RegexChar = true) ∧
    validateBase64 (some " ") "value" =
      .error { message := "value must be a non-empty string" } :=
  ⟨by decide, by decide, rfl⟩

/-- Claim C10 (amended). Every string in the regex character class with
a non-empty trim passes `validateBase64`: the second-stage
`Buffer.from(value, 'base64')` check is total and never raises, so even
strings that are not syntactically well-formed base64 (a lone `=`,
misplaced padding) reach the decryption layer. -/
theorem c10_base64_accepts_nonblank (s : String) (fieldName : String)
    (h1 : trimIsEmpty s = false) (h2 : s.data.all base64RegexChar = true) :
    validateBase64 (some s) fieldName = .ok () := by
  simp [validateBase64, validateNonEmptyString, h1, h2, Bind.bind, Except.bind]

/-- Witness for C10's amended theorem: a lone padding character — not
syntactically valid base64 — passes validation. -/
theorem c10_base64_accepts_nonblank_witness :
    trimIsEmpty "=" = false ∧ "=".data.all base64RegexChar = true ∧
    validateBase64 (some "=") "value" = .ok () :=
  ⟨by decide, by decide, c10_base64_accepts_nonblank "=" "value" (by decide) (by decide)⟩

/-- Appending makes the right operand a substring. -/
theorem strIncludes_append_right (a b : String) : strIncludes (a ++ b) b = true := by
  simp only [strIncludes, List.any_eq_true, List.mem_range]
  refine ⟨a.data.length, ?_, ?_⟩
  · simp only [String.data_append, List.length_append]
    omega
  · rw [String.data_append, List.drop_left]
    simp [ List.isPrefixOf_iff_prefix]

/-- Claim C7 (counterexample). The legacy transport serializer
`stringifyError` of `src/src/exceptions/rpc-exception.js` — one of the
two serializers the claim covers — appends the stack unconditionally:
on a concrete error it emits the stack even though no development-mode
flag is set (the sanitizer build, by contrast, returns the bare
message). -/
theorem c7_stack_in_production_counterexample :
    stringifyErrorLegacy { message := "boom", stack := "at f" } = "boom: at f" ∧
    strIncludes (stringifyErrorLegacy { message := "boom", stack := "at f" }) "at f" = true ∧
    stringifyError false { message := "boom", stack := "at f" } = "boom" :=
  ⟨rfl, by decide, rfl⟩

/-- Claim C7 (amended). For the sanitizer build of `stringifyError`
(`src/exceptions/rpc-exception.js`, the one the current handlers use),
the stack appears in the output exactly when the development-mode flag
is set, and without the flag the output is the message alone; the
legacy worklet serializer includes the stack unconditionally. -/
theorem c7_stack_only_in_dev (dev : Bool) (e : JsError)
    (h : strIncludes e.message e.stack = false) :
    strIncludes (stringifyError dev e) e.stack = dev ∧
    (dev = false → stringifyError dev e = e.message) := by
  cases dev
  · exact ⟨by simpa [stringifyError] using h, fun _ => rfl⟩
  · exact ⟨strIncludes_append_right (e.message ++ ": ") e.stack, fun h' => Bool.noConfusion h'⟩

/-- Witness for C7's amended theorem at a concrete error in both
modes. -/
theorem c7_stack_only_in_dev_witness :
    strIncludes (stringifyError true { message := "boom", stack := "at f" }) "at f" = true ∧
    strIncludes (stringifyError false { message := "boom", stack := "at f" }) "at f" = false :=
  ⟨(c7_stack_only_in_dev true { message := "boom", stack := "at f" } (by decide)).1,
    (c7_stack_only_in_dev false { message := "boom", stack := "at f" } (by decide)).1⟩

/-- Claim C8. A `callMethod` with a validly shaped payload while no
session is installed (`context.wdk` null — before any successful
`initializeWDK`, or after `dispose`) is rejected with a structured error
classified WDK_MANAGER_INIT whose message says the WDK is not
initialized, and the engine is never consulted (no account resolution
event). -/
theorem c8_call_before_init (dev : Bool) (parse : String → Option JsValue)
    (getAccount : WdkInstance → String → Int → Except JsError Account)
    (ctx : Ctx) (payload : CallMethodPayload) (args : JsValue)
    (hwdk : ctx.wdk = none)
    (hval : callMethodValidation parse payload = .ok args) :
    (onCallMethod dev parse getAccount ctx payload).1 =
      .error { code := .wdkManagerInit,
               message := "WDK not initialized. Call initializeWDK first.",
               error := stringifyError dev
                 (createErrorWithCode "WDK not initialized. Call initializeWDK first."
                   .wdkManagerInit) } ∧
    (onCallMethod dev parse getAccount ctx payload).2 = [] ∧
    strIncludes "WDK not initialized. Call initializeWDK first." "not initialized" = true := by
  have hbody : onCallMethodBody parse getAccount ctx payload =
      (.error (createErrorWithCode "WDK not initialized. Call initializeWDK first."
        .wdkManagerInit), []) := by
    simp only [onCallMethodBody, hval, validateRequest, callWdkMethod, hwdk]
  have hW : strIncludes "WDK not initialized. Call initializeWDK first." "WDK" = true := by
    decide
  refine ⟨?_, ?_, by decide⟩
  · simp [onCallMethod, hbody, withErrorHandling, createStructuredError, createErrorWithCode, hW]
  · simp [onCallMethod, hbody]

/-- Witness for C8 at a concrete uninitialized context and payload. -/
theorem c8_call_before_init_witness :
    (onCallMethod false (fun _ => none) (fun _ _ _ => .error { message := "x" })
      ⟨none, true, [], []⟩ ⟨some "getBalance", some "ethereum", 0, none⟩).1 =
      .error { code := .wdkManagerInit,
               message := "WDK not initialized. Call initializeWDK first.",
               error := stringifyError false
                 (createErrorWithCode "WDK not initialized. Call initializeWDK first."
                   .wdkManagerInit) } ∧
    (onCallMethod false (fun _ => none) (fun _ _ _ => .error { message := "x" })
      ⟨none, true, [], []⟩ ⟨some "getBalance", some "ethereum", 0, none⟩).2 = [] ∧
    strIncludes "WDK not initialized. Call initializeWDK first." "not initialized" = true :=
  c8_call_before_init false (fun _ => none) (fun _ _ _ => .error { message := "x" })
    ⟨none, true, [], []⟩ ⟨some "getBalance", some "ethereum", 0, none⟩ .vNull rfl rfl

/-- Claim C9, evaluated at the failing input. `generateEntropyAndEncrypt`
with wordCount 15: the handler body throws an error that does carry
`code = BAD_REQUEST` (attached by `validateRequest`) with a message
mentioning "12 or 24", and no random bytes are drawn; for wordCount 12
`generateEntropy` draws exactly 16 bytes and for 24 exactly 32. But the
transported structured error carries code UNKNOWN: `createStructuredError`
never reads the thrown error's `code` property — contradicting its own
docstring ("preserves error codes") — and its message-based inference
finds no keyword. -/
theorem c9_wordcount_evaluation :
    (onGenerateEntropyAndEncrypt false trivialCore (fun _ => .ok "m") (fun _ => [0])
      ⟨15⟩ rng0).1 =
      .error { code := .unknown, message := "wordCount must be 12 or 24",
               error := "wordCount must be 12 or 24" } ∧
    (onGenerateEntropyAndEncryptBody trivialCore (fun _ => .ok "m") (fun _ => [0])
      ⟨15⟩ rng0).1 =
      .error { message := "wordCount must be 12 or 24", code := some .badRequest } ∧
    (onGenerateEntropyAndEncrypt false trivialCore (fun _ => .ok "m") (fun _ => [0])
      ⟨15⟩ rng0).2.pos = 0 ∧
    (generateEntropy 12 rng0).2.pos = 16 ∧
    (generateEntropy 24 rng0).2.pos = 32 ∧
    strIncludes "wordCount must be 12 or 24" "12 or 24" = true :=
  ⟨rfl, rfl, rfl, rfl, rfl, by decide⟩

/-- A failing `decrypt` always carries the cipher's generic
authentication-failure error (no `code` property). -/
theorem decrypt_error_shape (core : GcmCore) (b k : String)
    (h : exceptIsOk (decrypt core b k).1 = false) :
    (decrypt core b k).1 = .error gcmAuthFailure := by
  simp only [decrypt] at h ⊢
  split at h <;> simp_all [exceptIsOk]

/-- Claim C2 (counterexample). `getMnemonicFromEntropy` with a
well-formed base64 blob that fails authentication (a tampered
ciphertext): the decryption failure propagates uncoded — the handler has
no try/catch around `decrypt` — and the boundary classifier infers
UNKNOWN, not BAD_REQUEST. -/
theorem c2_decrypt_classification_counterexample :
    onGetMnemonicFromEntropy false trivialCore (fun _ => .ok "unused")
      { encryptedEntropy := some (bufferToBase64 (List.replicate 29 1)),
        encryptionKey := some (bufferToBase64 (List.replicate 32 0)) } =
      .error { code := .unknown,
               message := "Unsupported state or unable to authenticate data",
               error := "Unsupported state or unable to authenticate data" } := rfl

/-- Claim C2 (amended). Of the two decrypting operations, only
`initializeWDK` wraps its decrypt call: there a decryption failure is
rethrown with `code = BAD_REQUEST` at the throw site. In
`getMnemonicFromEntropy` the failure reaches the boundary uncoded and
the structured error transported to the caller is classified UNKNOWN
(the generic cipher error is no TypeError and mentions neither "WDK" nor
"balance"). -/
theorem c2_decrypt_classification_amended
    (core : GcmCore) (parse : String → Option JsValue) (ctx : Ctx) (init : InitRequest)
    (cfg : JsValue) (dev : Bool)
    (entropyToMnemonic : List Nat → Except JsError String) (req : GetMnemonicRequest)
    (hload : ctx.wdkLoaded = true)
    (hval : initRequestValidation parse init = .ok cfg)
    (hmiss : ctx.requiredNetworks.filter
      (fun n => ¬truthy ((jsGetField cfg n).getD .vNull)) = [])
    (hdec : exceptIsOk (decrypt core (init.encryptedSeed.getD "")
      (init.encryptionKey.getD "")).1 = false)
    (hval2 : mnemonicRequestValidation req = .ok ())
    (hdec2 : exceptIsOk (decrypt core (req.encryptedEntropy.getD "")
      (req.encryptionKey.getD "")).1 = false) :
    (onInitializeWDKBody core parse ctx init).1 =
      .error { message := "Failed to decrypt seed: " ++ gcmAuthFailure.message,
               code := some .badRequest } ∧
    onGetMnemonicFromEntropy dev core entropyToMnemonic req =
      .error (createStructuredError dev gcmAuthFailure none) ∧
    (createStructuredError dev gcmAuthFailure none).code = .unknown := by
  have h1 : strIncludes "Unsupported state or unable to authenticate data" "WDK" = false := by
    decide
  have h2 : strIncludes "Unsupported state or unable to authenticate data" "balance" = false := by
    decide
  refine ⟨?_, ?_, by simp [createStructuredError, gcmAuthFailure, h1, h2]⟩
  · simp only [onInitializeWDKBody, hload, Bool.not_true, if_false, hval, validateRequest,
      hmiss, decrypt_error_shape core _ _ hdec, createErrorWithCode]
    simp
  · simp only [onGetMnemonicFromEntropy, onGetMnemonicFromEntropyBody, hval2, validateRequest,
      decrypt_error_shape core _ _ hdec2, withErrorHandling]

/-- Witness for C2's amended theorem at concrete tampered blobs. -/
theorem c2_decrypt_classification_amended_witness :
    (onInitializeWDKBody trivialCore (fun _ => some (.vObj [])) ⟨none, true, [], []⟩
      { config := some "c",
        encryptionKey := some (bufferToBase64 (List.replicate 32 0)),
        encryptedSeed := some (bufferToBase64 (List.replicate 29 1)) }).1 =
      .error { message := "Failed to decrypt seed: " ++ gcmAuthFailure.message,
               code := some .badRequest } ∧
    onGetMnemonicFromEntropy false trivialCore (fun _ => .ok "unused")
      { encryptedEntropy := some (bufferToBase64 (List.replicate 29 1)),
        encryptionKey := some (bufferToBase64 (List.replicate 32 0)) } =
      .error (createStructuredError false gcmAuthFailure none) ∧
    (createStructuredError false gcmAuthFailure none).code = .unknown :=
  c2_decrypt_classification_amended trivialCore (fun _ => some (.vObj []))
    ⟨none, true, [], []⟩
    { config := some "c",
      encryptionKey := some (bufferToBase64 (List.replicate 32 0)),
      encryptedSeed := some (bufferToBase64 (List.replicate 29 1)) }
    (.vObj []) false (fun _ => .ok "unused")
    { encryptedEntropy := some (bufferToBase64 (List.replicate 29 1)),
      encryptionKey := some (bufferToBase64 (List.replicate 32 0)) }
    rfl rfl rfl rfl rfl rfl

/-- Modelled from the spec: the claimed argument passing of `callMethod`
— an `args` value decoding to an array is spread as positional
arguments, an object is passed as a single argument. Stated for
comparison with the code's behavior (`account[methodName](args)`), which
always passes one argument. -/
def specClaimedArgList : JsValue → List JsValue
  | .vArr elems => elems
  | v => [v]

/-- Account with a single method echoing its positional-argument list,
used to observe how the dispatcher passes arguments. -/
def echoAccount : Account :=
  ⟨[("echo", .fn fun argList => .ok (.vArr argList))]⟩

/-- Context with an installed engine instance. -/
def activeCtx : Ctx := ⟨some ⟨[0], []⟩, true, [], []⟩

/-- Engine resolver returning the echo account for every request. -/
def echoGetAccount : WdkInstance → String → Int → Except JsError Account :=
  fun _ _ _ => .ok echoAccount

/-- JSON parse stub decoding the literal `[1,2]`. -/
def parseArr12 : String → Option JsValue :=
  fun s => if s = "[1,2]" then some (.vArr [.vNum 1, .vNum 2]) else none

/-- A `callMethod` payload whose `args` is the JSON array `[1,2]`. -/
def callPayloadArr : CallMethodPayload := ⟨some "echo", some "ethereum", 0, some "[1,2]"⟩

/-- Claim C3 (counterexample). With `args` decoding to the array `[1,2]`
and an echo method that returns its positional-argument list, the
dispatcher's result is `"[[1,2]]"`: the method received ONE argument —
the array itself — not the two spread elements; under the claimed
spreading (cf. `specClaimedArgList`) the echo would have produced
`"[1,2]"`. -/
theorem c3_args_spread_counterexample :
    (onCallMethod false parseArr12 echoGetAccount activeCtx callPayloadArr).1 =
      .ok { result := "[[1,2]]" } ∧
    safeStringify (.vArr (specClaimedArgList (.vArr [.vNum 1, .vNum 2]))) = some "[1,2]" ∧
    "[[1,2]]" ≠ "[1,2]" := by
  have hval : callMethodValidation parseArr12 callPayloadArr = .ok (.vArr [.vNum 1, .vNum 2]) :=
    rfl
  have hcall : callWdkMethod echoGetAccount activeCtx "echo" (some "ethereum") 0
      (.vArr [.vNum 1, .vNum 2]) =
      (.ok (.vArr [.vArr [.vNum 1, .vNum 2]]), [.gotAccount "ethereum" 0]) := rfl
  have hser : safeStringify (.vArr [.vArr [.vNum 1, .vNum 2]]) = some "[[1,2]]" := by
    simp [safeStringify, jsonStringify, jsonStringifyList]
    rfl
  refine ⟨?_, ?_, by decide⟩
  · simp only [onCallMethod, onCallMethodBody, hval, validateRequest,
      show callPayloadArr.methodName = some "echo" from rfl,
      show callPayloadArr.network = some "ethereum" from rfl,
      show callPayloadArr.accountIndex = (0 : Int) from rfl,
      Option.getD_some, hcall, hser, withErrorHandling]
  · simp [safeStringify, jsonStringify, jsonStringifyList, specClaimedArgList]
    rfl

/-- Claim C3 (amended). For every `callMethod` whose `args` validates to
the value `v` (array or object alike), the resolved account method is
invoked with the single-element positional-argument list `[v]` — an
array is passed as one argument, not spread; only the object half of the
claim matches the code. -/
theorem c3_args_single_argument (parse : String → Option JsValue)
    (getAccount : WdkInstance → String → Int → Except JsError Account)
    (ctx : Ctx) (payload : CallMethodPayload) (w : WdkInstance) (net : String)
    (acct : Account) (f : List JsValue → Except JsError JsValue) (v : JsValue)
    (hwdk : ctx.wdk = some w)
    (hval : callMethodValidation parse payload = .ok v)
    (hnet : payload.network = some net)
    (hnetne : trimIsEmpty net = false)
    (hacct : getAccount w net payload.accountIndex = .ok acct)
    (hm : acct.props.lookup (payload.methodName.getD "") = some (.fn f)) :
    (onCallMethodBody parse getAccount ctx payload).1 =
      (match f [v] with
        | .ok result =>
          match safeStringify result with
          | some s => .ok { result := s }
          | none => .error circularTypeError
        | .error e => .error e) := by
  simp only [onCallMethodBody, hval, validateRequest, callWdkMethod, hwdk, hnet, hnetne,
    Bool.false_eq_true, if_false, hacct, hm]
  cases hfv : f [v] with
  | ok result => cases hser : safeStringify result <;> simp [hser]
  | error e => simp

/-- Witness for C3's amended theorem at the concrete echo dispatch. -/
theorem c3_args_single_argument_witness :
    (onCallMethodBody parseArr12 echoGetAccount activeCtx callPayloadArr).1 =
      (match (fun argList => (.ok (JsValue.vArr argList) : Except JsError JsValue))
          [JsValue.vArr [.vNum 1, .vNum 2]] with
        | .ok result =>
          match safeStringify result with
          | some s => .ok { result := s }
          | none => .error circularTypeError
        | .error e => .error e) :=
  c3_args_single_argument parseArr12 echoGetAccount activeCtx callPayloadArr ⟨[0], []⟩
    "ethereum" echoAccount (fun argList => .ok (.vArr argList)) (.vArr [.vNum 1, .vNum 2])
    rfl rfl rfl rfl rfl rfl

/-- Account whose single method returns a circular value. -/
def cyclicAccount : Account :=
  ⟨[("getThing", .fn fun _ => .ok (.vCyclic "[object Object]"))]⟩

/-- Engine resolver returning the cyclic-result account. -/
def cyclicGetAccount : WdkInstance → String → Int → Except JsError Account :=
  fun _ _ _ => .ok cyclicAccount

/-- A `callMethod` payload without `args`. -/
def callPayloadNoArgs : CallMethodPayload := ⟨some "getThing", some "ethereum", 0, none⟩

/-- Claim C5 (counterexample). When the dispatched method returns a
value with a circular structure, the current dispatcher's serialization
(`safeStringify`, which handles only BigInt and has no try/catch) throws
and the whole call fails — no tagged placeholder is produced — refuting
"the dispatcher's result serialization succeeds (it never raises)". -/
theorem c5_serialization_counterexample :
    (onCallMethod false (fun _ => none) cyclicGetAccount activeCtx callPayloadNoArgs).1 =
      .error { code := .badRequest,
               message := "Converting circular structure to JSON",
               error := "Converting circular structure to JSON" } := by
  have hval : callMethodValidation (fun _ => none) callPayloadNoArgs = .ok .vNull := rfl
  have hcall : callWdkMethod cyclicGetAccount activeCtx "getThing" (some "ethereum") 0 .vNull =
      (.ok (.vCyclic "[object Object]"), [.gotAccount "ethereum" 0]) := rfl
  have hser : safeStringify (.vCyclic "[object Object]") = none := by
    simp [safeStringify, jsonStringify]
  simp only [onCallMethod, onCallMethodBody, hval, validateRequest,
    show callPayloadNoArgs.methodName = some "getThing" from rfl,
    show callPayloadNoArgs.network = some "ethereum" from rfl,
    show callPayloadNoArgs.accountIndex = (0 : Int) from rfl,
    Option.getD_some, hcall, hser, withErrorHandling, createStructuredError, circularTypeError]
  simp [stringifyError]

/-- Claim C5 (amended). The current dispatcher's serializer converts
BigInt values to decimal strings and dates to ISO strings, but it can
raise: when the dispatched method's result has no JSON form (a circular
structure) the call fails with the serializer's TypeError instead of
producing a placeholder. The tagged-placeholder fallback exists only in
the legacy worklet's `serializeResult`, where it does hold. -/
theorem c5_serialization_amended (parse : String → Option JsValue)
    (getAccount : WdkInstance → String → Int → Except JsError Account)
    (ctx : Ctx) (payload : CallMethodPayload) (w : WdkInstance) (net : String)
    (acct : Account) (f : List JsValue → Except JsError JsValue) (v result : JsValue)
    (n : Int) (iso str : String)
    (hwdk : ctx.wdk = some w)
    (hval : callMethodValidation parse payload = .ok v)
    (hnet : payload.network = some net)
    (hnetne : trimIsEmpty net = false)
    (hacct : getAccount w net payload.accountIndex = .ok acct)
    (hm : acct.props.lookup (payload.methodName.getD "") = some (.fn f))
    (hres : f [v] = .ok result)
    (hser : safeStringify result = none) :
    (onCallMethodBody parse getAccount ctx payload).1 = .error circularTypeError ∧
    safeStringify (.vBigInt n) = some (jsonQuote (toString n)) ∧
    safeStringify (.vDate iso) = some (jsonQuote iso) ∧
    serializeResult (.vCyclic str) = nonSerializablePlaceholder (.vCyclic str) := by
  refine ⟨?_, by simp [safeStringify, jsonStringify], by simp [safeStringify, jsonStringify],
    by simp [serializeResult, jsonStringify]⟩
  simp only [onCallMethodBody, hval, validateRequest, callWdkMethod, hwdk, hnet, hnetne,
    Bool.false_eq_true, if_false, hacct, hm, hres, hser]

/-- Witness for C5's amended theorem at the concrete cyclic dispatch. -/
theorem c5_serialization_amended_witness :
    (onCallMethodBody (fun _ => none) cyclicGetAccount activeCtx callPayloadNoArgs).1 =
      .error circularTypeError ∧
    safeStringify (.vBigInt 7) = some (jsonQuote (toString (7 : Int))) ∧
    safeStringify (.vDate "1970-01-01T00:00:00.000Z") =
      some (jsonQuote "1970-01-01T00:00:00.000Z") ∧
    serializeResult (.vCyclic "[object Object]") =
      nonSerializablePlaceholder (.vCyclic "[object Object]") :=
  c5_serialization_amended (fun _ => none) cyclicGetAccount activeCtx callPayloadNoArgs
    ⟨[0], []⟩ "ethereum" cyclicAccount (fun _ => .ok (.vCyclic "[object Object]")) .vNull
    (.vCyclic "[object Object]") 7 "1970-01-01T00:00:00.000Z" "[object Object]"
    rfl rfl rfl rfl rfl rfl rfl (by simp [safeStringify, jsonStringify])

/-- Context of the C1 scenario: an active engine instance (seed `[9]`),
a manager registry containing only "ethereum", and "ethereum" as the
sole required network. -/
def c1Ctx : Ctx := ⟨some ⟨[9], []⟩, true, ["ethereum"], ["ethereum"]⟩

/-- Config of the C1 scenario: entries for "ethereum" (has a manager)
and "spark" (no manager in the registry). -/
def c1Cfg : JsValue := .vObj [("ethereum", .vObj []), ("spark", .vObj [])]

/-- JSON parse stub for the C1 config. -/
def c1Parse : String → Option JsValue := fun _ => some c1Cfg

/-- Init request of the C1 scenario; the seed blob decrypts successfully
under `trivialCore` to the byte `[0]`. -/
def c1Init : InitRequest :=
  ⟨some "cfg", some (bufferToBase64 (List.replicate 32 0)),
    some (bufferToBase64 (List.replicate 29 0))⟩

/-- Claim C1 (counterexample). The seed decrypts, "ethereum" registers,
then "spark" has no wallet manager and the call fails — but the newly
constructed, partially registered instance (only "ethereum" registered)
REMAINS installed as the active session, refuting "no
partially-registered engine instance remains installed as the active
session after the failed call". The event list confirms the old
instance's disposal preceded the construction. -/
theorem c1_partial_session_counterexample :
    (onInitializeWDKBody trivialCore c1Parse c1Ctx c1Init).1 =
      .error (createErrorWithCode "No wallet manager found for network: spark"
        .wdkManagerInit) ∧
    (onInitializeWDKBody trivialCore c1Parse c1Ctx c1Init).2.1.wdk =
      some { seed := [0], registered := [("ethereum", .vObj [])] } ∧
    (onInitializeWDKBody trivialCore c1Parse c1Ctx c1Init).2.2 =
      [.disposed [9], .constructed [0], .registered "ethereum"] :=
  ⟨rfl, rfl, rfl⟩

/-- Claim C1 (amended). When the seed decrypts but a registration fails,
the call fails with that registration error and the previously active
instance has been disposed first — but the session state is NOT restored:
the new, partially registered instance stays installed as
`context.wdk`. -/
theorem c1_partial_session_amended (core : GcmCore) (parse : String → Option JsValue)
    (ctx : Ctx) (init : InitRequest) (cfg : JsValue) (seed : List Nat) (e : JsError)
    (hload : ctx.wdkLoaded = true)
    (hval : initRequestValidation parse init = .ok cfg)
    (hmiss : ctx.requiredNetworks.filter
      (fun n => ¬truthy ((jsGetField cfg n).getD .vNull)) = [])
    (hdec : (decrypt core (init.encryptedSeed.getD "") (init.encryptionKey.getD "")).1 =
      .ok seed)
    (hreg : (registerNetworks ctx.walletManagers ⟨seed, []⟩ (jsEntries cfg)).1 = .error e) :
    (onInitializeWDKBody core parse ctx init).1 = .error e ∧
    (onInitializeWDKBody core parse ctx init).2.1.wdk =
      some (registerNetworks ctx.walletManagers ⟨seed, []⟩ (jsEntries cfg)).2.1 ∧
    (onInitializeWDKBody core parse ctx init).2.2 =
      (match ctx.wdk with | some w => [Ev.disposed w.seed] | none => []) ++
        [Ev.constructed seed] ++
        (registerNetworks ctx.walletManagers ⟨seed, []⟩ (jsEntries cfg)).2.2 := by
  rcases hr : registerNetworks ctx.walletManagers ⟨seed, []⟩ (jsEntries cfg) with ⟨r, wf, evs⟩
  rw [hr] at hreg
  simp only at hreg
  simp only [onInitializeWDKBody, hload, Bool.not_true, if_false, hval, validateRequest,
    hmiss, hdec, hr, hreg]
  simp

/-- Witness for C1's amended theorem at the concrete scenario. -/
theorem c1_partial_session_amended_witness :
    (onInitializeWDKBody trivialCore c1Parse c1Ctx c1Init).1 =
      .error (createErrorWithCode "No wallet manager found for network: spark"
        .wdkManagerInit) ∧
    (onInitializeWDKBody trivialCore c1Parse c1Ctx c1Init).2.1.wdk =
      some (registerNetworks c1Ctx.walletManagers ⟨[0], []⟩ (jsEntries c1Cfg)).2.1 ∧
    (onInitializeWDKBody trivialCore c1Parse c1Ctx c1Init).2.2 =
      (match c1Ctx.wdk with | some w => [Ev.disposed w.seed] | none => []) ++
        [Ev.constructed [0]] ++
        (registerNetworks c1Ctx.walletManagers ⟨[0], []⟩ (jsEntries c1Cfg)).2.2 :=
  c1_partial_session_amended trivialCore c1Parse c1Ctx c1Init c1Cfg [0]
    (createErrorWithCode "No wallet manager found for network: spark" .wdkManagerInit)
    rfl rfl rfl rfl rfl
